import Mathlib

/-!
Verification of the serverless-otlp-forwarder Python packages
(`lambda_otel_lite` and `otlp-stdout-span-exporter`): a shallow embedding
of the processor-mode resolution, the traced-handler lifecycle, the
configuration resolver, the resource builder, the span-attribute
extraction, and the span-export encoder, with theorems about the
properties stated in the specification.

String operations are embedded as structural functions over `List Char`
(mirroring the ASCII semantics of the Python `str` methods used by the
source) so that every definition is executable by the kernel.
-/

set_option autoImplicit false

/-- ASCII lower-casing of a single character, as Python `str.lower` acts on
the ASCII range used by the configuration values in this code base. -/
def lowerChar (c : Char) : Char :=
  if 'A' ≤ c ∧ c ≤ 'Z' then Char.ofNat (c.toNat + 32) else c

/-- Lower-case a string (ASCII range), mirroring Python `str.lower`. -/
def toLowerStr (s : String) : String :=
  String.mk (s.data.map lowerChar)

/-- Whitespace test for Python `str.strip` on the characters that occur in
environment values. -/
def isSpaceChar (c : Char) : Bool :=
  c = ' ' || c = '\t' || c = '\n' || c = '\r'

/-- Strip leading and trailing whitespace, mirroring Python `str.strip`. -/
def trimStr (s : String) : String :=
  String.mk (((s.data.dropWhile isSpaceChar).reverse.dropWhile isSpaceChar).reverse)

/-- Split a character list on a separator character, mirroring Python
`str.split(sep)` for a one-character separator. -/
def splitOnChar (sep : Char) : List Char → List (List Char)
  | [] => [[]]
  | c :: rest =>
    let r := splitOnChar sep rest
    if c = sep then [] :: r
    else
      match r with
      | [] => [[c]]
      | h :: t => (c :: h) :: t

/-- Numeric value of an ASCII digit character. -/
def digitVal (c : Char) : Option Nat :=
  if '0' ≤ c ∧ c ≤ '9' then some (c.toNat - 48) else none

/-- Accumulate a decimal numeral; fails on any non-digit character. -/
def parseNatAux : List Char → Nat → Option Nat
  | [], acc => some acc
  | c :: rest, acc =>
    match digitVal c with
    | some d => parseNatAux rest (acc * 10 + d)
    | none => none

/-- Parse an optionally signed decimal integer, mirroring Python `int(s)`
on already-trimmed input (fails on empty input and on non-digits). -/
def parseIntStr (s : String) : Option Int :=
  match s.data with
  | [] => none
  | '-' :: rest =>
    if rest.isEmpty then none else (parseNatAux rest 0).map (fun n => -(n : Int))
  | '+' :: rest =>
    if rest.isEmpty then none else (parseNatAux rest 0).map (fun n => (n : Int))
  | l => (parseNatAux l 0).map (fun n => (n : Int))

/-- The three span-processing modes of `lambda_otel_lite.ProcessorMode`
(`src/packages/python/lambda_otel_lite/src/lambda_otel_lite/__init__.py`). -/
inductive ProcessorMode
  | SYNC
  | ASYNC
  | FINALIZE
deriving DecidableEq

/-- The string value of each enum member (`SYNC = "sync"`, etc.). -/
def ProcessorMode.value : ProcessorMode → String
  | .SYNC => "sync"
  | .ASYNC => "async"
  | .FINALIZE => "finalize"

/-- Python `ProcessorMode(value)` enum lookup: succeeds exactly on the
three member value strings. -/
def ProcessorMode.ofValue (s : String) : Option ProcessorMode :=
  if s = "sync" then some .SYNC
  else if s = "async" then some .ASYNC
  else if s = "finalize" then some .FINALIZE
  else none

/-- `ProcessorMode.from_env` from the package `__init__.py`:
`value = os.getenv(env_var, "").lower() or (default.value if default else "")`,
then `cls(value)`, re-raising `ValueError` on an invalid value.
`envValue` is the result of the environment lookup (`none` when unset). -/
def ProcessorMode.from_env (envValue : Option String) (default : Option ProcessorMode) :
    Except String ProcessorMode :=
  let lowered := toLowerStr (envValue.getD "")
  let value :=
    if lowered = "" then
      match default with
      | some d => d.value
      | none => ""
    else lowered
  match ProcessorMode.ofValue value with
  | some m => Except.ok m
  | none => Except.error ("Invalid processor mode value: " ++ value)

example : ProcessorMode.from_env (some "SYNC") none = Except.ok ProcessorMode.SYNC := rfl

example : ProcessorMode.from_env none (some ProcessorMode.ASYNC) = Except.ok ProcessorMode.ASYNC :=
  rfl

example : (ProcessorMode.from_env (some "invalid") none).isOk = false := by decide

example : (ProcessorMode.from_env (some "  sync  ") none).isOk = false := by decide

/-- Observable actions of one traced invocation, in order of occurrence. -/
inductive HandlerEvent
  | spanStart
  | runBody
  | spanEnd
  | forceFlush
  | signalSet
  | reraise
deriving DecidableEq

/-- Modelled from the spec: `traced_handler` of `lambda_otel_lite.handler`
(module absent from the sources; only its tests are present).  Per §4.5
steps 4-7: the span is started, the business logic runs, the span is ended
on every exit path, then the scope-exit branch on the configured mode runs
(SYNC force-flushes the provider, ASYNC sets the process-wide completion
signal, FINALIZE does nothing), and finally any exception captured from
the body is re-raised.  `bodyRaises` says whether the business logic
raised; the result is the ordered trace of observable actions. -/
def traced_handler_trace (mode : ProcessorMode) (bodyRaises : Bool) : List HandlerEvent :=
  [HandlerEvent.spanStart, HandlerEvent.runBody, HandlerEvent.spanEnd]
    ++ (match mode with
        | ProcessorMode.SYNC => [HandlerEvent.forceFlush]
        | ProcessorMode.ASYNC => [HandlerEvent.signalSet]
        | ProcessorMode.FINALIZE => [])
    ++ (if bodyRaises then [HandlerEvent.reraise] else [])

example : traced_handler_trace ProcessorMode.SYNC false
    = [HandlerEvent.spanStart, HandlerEvent.runBody, HandlerEvent.spanEnd,
       HandlerEvent.forceFlush] := by decide

/-- Modelled from the spec: one traced invocation's effect on the
process-wide cold-start flag of `lambda_otel_lite.handler` (module absent
from the sources).  Per §4.5 step 3 and §5: when the flag is still true the
handler emits `faas.cold_start=true` on the span and flips the flag to
false; afterwards the flag stays false and the attribute is never emitted.
Returns (attribute emitted this invocation, new flag value). -/
def cold_start_invocation (is_cold_start : Bool) : Bool × Bool :=
  if is_cold_start then (true, false) else (false, is_cold_start)

/-- Run `n` sequential traced invocations in one process starting from
flag state `s`; the result lists, per invocation, whether the
`faas.cold_start` attribute was emitted. -/
def cold_start_trace : Nat → Bool → List Bool
  | 0, _ => []
  | Nat.succ n, s =>
    let step := cold_start_invocation s
    step.fst :: cold_start_trace n step.snd

example : cold_start_trace 4 true = [true, false, false, false] := by decide

/-- Case-insensitive boolean literal parsing of the Configuration
Resolver (§4.1: parsing is case-insensitive on the two literals). -/
def parse_bool_value (s : String) : Option Bool :=
  let t := toLowerStr s
  if t = "true" then some true
  else if t = "false" then some false
  else none

/-- Modelled from the spec: `get_bool_env` of `lambda_otel_lite.config`
(module absent from the sources; only its tests are present).  Per §4.1:
trimmed environment value beats `config_default` beats `hard_default`; an
empty (or all-whitespace) value counts as unset; a parse failure logs a
warning and falls back to `config_default` (or `hard_default` when that is
absent) instead of raising.  `envValue` is the environment lookup result
(`none` when unset). -/
def get_bool_env (envValue : Option String) (config_default : Option Bool)
    (hard_default : Bool) : Bool :=
  match envValue with
  | none => config_default.getD hard_default
  | some raw =>
    let t := trimStr raw
    if t = "" then config_default.getD hard_default
    else
      match parse_bool_value t with
      | some b => b
      | none => config_default.getD hard_default

/-- Modelled from the spec: `get_int_env` of `lambda_otel_lite.config`
(module absent from the sources).  Same precedence and fallback rules as
`get_bool_env`; additionally a caller-supplied validator may reject the
parsed environment value, which also falls back (with a warning) rather
than raising. -/
def get_int_env (envValue : Option String) (config_default : Option Int)
    (hard_default : Int) (validator : Int → Bool) : Int :=
  match envValue with
  | none => config_default.getD hard_default
  | some raw =>
    let t := trimStr raw
    if t = "" then config_default.getD hard_default
    else
      match parseIntStr t with
      | some n => if validator n then n else config_default.getD hard_default
      | none => config_default.getD hard_default

/-- Modelled from the spec: `get_str_env` of `lambda_otel_lite.config`
(module absent from the sources).  Trimmed value wins unless empty or
rejected by the validator, in which case it falls back to
`config_default` then `hard_default`, never raising. -/
def get_str_env (envValue : Option String) (config_default : Option String)
    (hard_default : String) (validator : String → Bool) : String :=
  match envValue with
  | none => config_default.getD hard_default
  | some raw =>
    let t := trimStr raw
    if t = "" then config_default.getD hard_default
    else if validator t then t else config_default.getD hard_default

example : get_bool_env (some "  true  ") none false = true := by decide

example : get_int_env (some "123") (some 42) 0 (fun x => decide (x > 200)) = 42 := by decide

example : get_str_env (some "  hello  ") (some "world") "" (fun _ => true) = "hello" := by decide

/-- Modelled from the spec: the `service.name` / `faas.name` part of
`get_lambda_resource` in `lambda_otel_lite.telemetry` (module absent from
the sources; only its tests are present).  Per §3 and §8: `service.name`
follows the precedence custom-resource name > `OTEL_SERVICE_NAME` >
platform function name > the literal `"unknown_service"`, and `faas.name`
is recorded (equal to the platform function name) exactly when the
platform function-name variable is set.  Each argument is the respective
lookup result (`none` when unset / not supplied). -/
def get_lambda_resource (customServiceName : Option String)
    (otelServiceName : Option String) (functionName : Option String) :
    List (String × String) :=
  let svc :=
    match customServiceName with
    | some c => c
    | none =>
      match otelServiceName with
      | some o => o
      | none =>
        match functionName with
        | some f => f
        | none => "unknown_service"
  [("service.name", svc), ("cloud.provider", "aws")]
    ++ (match functionName with
        | some f => [("faas.name", f)]
        | none => [])

example : (get_lambda_resource none none (some "fn-a")).lookup "service.name" = some "fn-a" := by
  decide

example : (get_lambda_resource none none none).lookup "faas.name" = none := by decide

/-- Colon-separated segments of a function ARN, mirroring Python
`arn.split(":")`. -/
def splitArn (arn : String) : List String :=
  (splitOnChar ':' arn.data).map String.mk

/-- Modelled from the spec: `_extract_span_attributes` of
`lambda_otel_lite.handler` (module absent from the sources; only its tests
are present).  Per §4.4: with an invocation context present it always sets
`faas.invocation_id` from the context's request id and always sets
`faas.trigger` (the default extractor uses `"other"`); when the function
ARN has at least 5 colon-separated segments it also sets
`cloud.resource_id` (the ARN) and `cloud.account.id` (segment index 4); a
malformed ARN silently omits those two attributes and never raises. -/
def extract_span_attributes (arn : String) (requestId : String) :
    List (String × String) :=
  let parts := splitArn arn
  [("faas.invocation_id", requestId)]
    ++ (if 5 ≤ parts.length then
          [("cloud.resource_id", arn), ("cloud.account.id", parts.getD 4 "")]
        else [])
    ++ [("faas.trigger", "other")]

example :
    (extract_span_attributes "arn:aws:lambda:us-west-2:123456789012:function:test-function"
        "req-1").lookup "cloud.account.id" = some "123456789012" := by decide

example : (extract_span_attributes "invalid:arn" "req-1").lookup "cloud.resource_id" = none := by
  decide

/-- Result type of the Span Export Encoder's `export`
(`SpanExportResult.SUCCESS` / `FAILURE`). -/
inductive ExportResult
  | SUCCESS
  | FAILURE
deriving DecidableEq

/-- Modelled from the spec: the effective gzip compression level of
`OTLPStdoutSpanExporter` (package sources absent; only its tests are
present).  Per §4.6: the environment value wins when it parses as an
integer in [0,9]; otherwise a warning is logged and the constructor value
(default 6) is used; an unset environment uses the constructor value
(default 6) with no warning.  Returns (level used, warnings logged). -/
def effective_gzip_level (envLevel : Option String) (ctorLevel : Option Int) :
    Int × Nat :=
  let base := ctorLevel.getD 6
  match envLevel with
  | none => (base, 0)
  | some s =>
    match parseIntStr (trimStr s) with
    | some n => if 0 ≤ n ∧ n ≤ 9 then (n, 0) else (base, 1)
    | none => (base, 1)

example : effective_gzip_level (some "3") (some 9) = (3, 0) := by decide

example : effective_gzip_level (some "invalid") (some 4) = (4, 1) := by decide

example : effective_gzip_level (some "15") (some 4) = (4, 1) := by decide

example : effective_gzip_level none none = (6, 0) := by decide

/-- Modelled from the spec: `OTLPStdoutSpanExporter.export` (package
sources absent; only its tests are present).  Per §4.6 and the package's
own test expectations: an empty span batch is an immediate no-op that
returns SUCCESS; otherwise the batch is serialized (here `serialize`, with
`Except.error` standing for a raised exception and `Except.ok none` /
`Except.ok (some [])` for null / empty serialized bytes); empty or null
serialized bytes are handled gracefully — logged and reported as SUCCESS —
and only a raised exception yields FAILURE.  Also computes the effective
gzip level, so the result carries (export result, warnings logged). -/
def exporter_export {α : Type} (spans : List α)
    (serialize : List α → Except String (Option (List Nat)))
    (envLevel : Option String) (ctorLevel : Option Int) : ExportResult × Nat :=
  if spans.isEmpty then (ExportResult.SUCCESS, 0)
  else
    let lvl := effective_gzip_level envLevel ctorLevel
    match serialize spans with
    | Except.error _ => (ExportResult.FAILURE, lvl.snd)
    | Except.ok none => (ExportResult.SUCCESS, lvl.snd)
    | Except.ok (some _) => (ExportResult.SUCCESS, lvl.snd)

example :
    exporter_export [0] (fun _ => Except.ok none) none none = (ExportResult.SUCCESS, 0) := by
  decide

/-- Modelled from the spec: the envelope `source` field resolution of
`OTLPStdoutSpanExporter` (package sources absent; only its tests are
present): the service-name variable, else the platform function-name
variable, else — per the package's `test_default_values` — the hyphenated
literal `"unknown-service"`. -/
def exporter_service_name (serviceNameEnv : Option String)
    (functionNameEnv : Option String) : String :=
  serviceNameEnv.getD (functionNameEnv.getD "unknown-service")

example : exporter_service_name none none = "unknown-service" := by decide

/-- Auxiliary: once the cold-start flag is false, no later invocation in
the process emits the cold-start attribute. -/
theorem cold_start_trace_false (n : Nat) :
    cold_start_trace n false = List.replicate n false := by
  induction n with
  | zero => rfl
  | succ k ih =>
    simp only [cold_start_trace, cold_start_invocation, if_neg Bool.false_ne_true,
      List.replicate_succ]
    exact congrArg (List.cons false) ih

/-- Claim C1: for every configured processor mode and every traced
invocation, on scope exit of the traced handler exactly one of the three
actions occurs, matching the mode — SYNC force-flushes exactly once and
never sets the completion signal, ASYNC sets the completion signal exactly
once and never force-flushes, FINALIZE does neither — and this holds
whether the body returns normally or raises (in which case the exception
is re-raised after the mode branch). -/
theorem scope_exit_action_matches_mode (mode : ProcessorMode) (bodyRaises : Bool) :
    (traced_handler_trace mode bodyRaises).count HandlerEvent.forceFlush
        = (if mode = ProcessorMode.SYNC then 1 else 0)
      ∧ (traced_handler_trace mode bodyRaises).count HandlerEvent.signalSet
        = (if mode = ProcessorMode.ASYNC then 1 else 0)
      ∧ (traced_handler_trace mode bodyRaises).count HandlerEvent.reraise
        = (if bodyRaises then 1 else 0) := by
  cases mode <;> cases bodyRaises <;> decide

/-- Claim C2: across any number of sequential traced invocations of one
process, the `faas.cold_start` attribute is emitted on exactly the first
invocation and omitted on every later one. -/
theorem cold_start_emitted_only_on_first_invocation (n : Nat) :
    cold_start_trace (n + 1) true = true :: List.replicate n false := by
  simp only [cold_start_trace, cold_start_invocation, if_pos rfl]
  exact congrArg (List.cons true) (cold_start_trace_false n)

/-- Claim C3: every environment value whose normalized (lower-cased) form
is non-empty and is not one of the three valid mode names makes
`ProcessorMode.from_env` raise a `ValueError` (here: return an error)
instead of silently falling back to a default mode. -/
theorem invalid_processor_mode_env_fails_fast (v : String) (d : Option ProcessorMode)
    (hne : toLowerStr v ≠ "") (hinv : ProcessorMode.ofValue (toLowerStr v) = none) :
    ∃ msg, ProcessorMode.from_env (some v) d = Except.error msg := by
  refine ⟨"Invalid processor mode value: " ++ toLowerStr v, ?_⟩
  simp only [ProcessorMode.from_env, Option.getD_some, if_neg hne, hinv]

/-- Concrete instance of claim C3: the value `"not-a-mode"` is rejected. -/
theorem invalid_processor_mode_env_fails_fast_witness :
    ∃ msg, ProcessorMode.from_env (some "not-a-mode") none = Except.error msg :=
  invalid_processor_mode_env_fails_fast "not-a-mode" none (by decide) (by decide)

/-- Claim C4 (code evaluated at the failing input): the source
`ProcessorMode.from_env` lower-cases the environment value but never
strips surrounding whitespace, so the value `"  sync  "` — which the
claim, and the repository's own `test_from_env_with_whitespace`, expect to
resolve to SYNC — is rejected with an error. -/
theorem from_env_whitespace_value_rejected :
    (ProcessorMode.from_env (some "  sync  ") (some ProcessorMode.SYNC)).isOk = false
      ∧ ProcessorMode.ofValue (toLowerStr (trimStr "  sync  ")) = some ProcessorMode.SYNC := by
  decide

/-- Claim C5: the Configuration Resolver functions never raise — an
empty-string environment value behaves exactly like an unset variable, a
parse failure or validator rejection falls back to `config_default` (or
the hard default when that is absent), and a valid trimmed environment
value always wins over both defaults — for each of the bool, int and
string resolvers. -/
theorem config_resolver_fallback_behavior :
    (∀ cb hb, get_bool_env (some "") cb hb = get_bool_env none cb hb)
      ∧ (∀ v cb hb, trimStr v ≠ "" → parse_bool_value (trimStr v) = none →
          get_bool_env (some v) cb hb = cb.getD hb)
      ∧ (∀ v b cb hb, parse_bool_value (trimStr v) = some b →
          get_bool_env (some v) cb hb = b)
      ∧ (∀ ci hi val, get_int_env (some "") ci hi val = get_int_env none ci hi val)
      ∧ (∀ v ci hi val, trimStr v ≠ "" → parseIntStr (trimStr v) = none →
          get_int_env (some v) ci hi val = ci.getD hi)
      ∧ (∀ v n ci hi val, parseIntStr (trimStr v) = some n → val n = false →
          get_int_env (some v) ci hi val = ci.getD hi)
      ∧ (∀ v n ci hi val, parseIntStr (trimStr v) = some n → val n = true →
          get_int_env (some v) ci hi val = n)
      ∧ (∀ cs hs val, get_str_env (some "") cs hs val = get_str_env none cs hs val)
      ∧ (∀ v cs hs val, trimStr v ≠ "" → val (trimStr v) = false →
          get_str_env (some v) cs hs val = cs.getD hs)
      ∧ (∀ v cs hs val, trimStr v ≠ "" → val (trimStr v) = true →
          get_str_env (some v) cs hs val = trimStr v) := by
  refine ⟨?_, ?_, ?_, ?_, ?_, ?_, ?_, ?_, ?_, ?_⟩
  · intro cb hb
    rfl
  · intro v cb hb hne hp
    simp only [get_bool_env, if_neg hne, hp]
  · intro v b cb hb hp
    have hne : trimStr v ≠ "" := by
      intro h
      rw [h] at hp
      rw [show parse_bool_value "" = none from by decide] at hp
      exact Option.noConfusion hp
    simp only [get_bool_env, if_neg hne, hp]
  · intro ci hi val
    rfl
  · intro v ci hi val hne hp
    simp only [get_int_env, if_neg hne, hp]
  · intro v n ci hi val hp hval
    have hne : trimStr v ≠ "" := by
      intro h
      rw [h] at hp
      rw [show parseIntStr "" = none from by decide] at hp
      exact Option.noConfusion hp
    simp only [get_int_env, if_neg hne, hp, hval, if_neg Bool.false_ne_true]
  · intro v n ci hi val hp hval
    have hne : trimStr v ≠ "" := by
      intro h
      rw [h] at hp
      rw [show parseIntStr "" = none from by decide] at hp
      exact Option.noConfusion hp
    simp only [get_int_env, if_neg hne, hp, hval]
    simp
  · intro cs hs val
    rfl
  · intro v cs hs val hne hval
    simp only [get_str_env, if_neg hne, hval, if_neg Bool.false_ne_true]
  · intro v cs hs val hne hval
    simp only [get_str_env, if_neg hne, hval]
    simp

/-- Concrete instance of claim C5: an unparsable boolean environment
value falls back to the supplied `config_default`. -/
theorem config_resolver_fallback_behavior_witness :
    get_bool_env (some "not-a-bool") (some true) false = true :=
  config_resolver_fallback_behavior.2.1 "not-a-bool" (some true) false
    (by decide) (by decide)

/-- Claim C6: the built resource's `service.name` follows the precedence
custom resource > `OTEL_SERVICE_NAME` > platform function name > the
literal `"unknown_service"`, and `faas.name` is present (equal to the
platform function name) exactly when the platform function-name variable
is set. -/
theorem service_name_precedence :
    (∀ c o f, (get_lambda_resource (some c) o f).lookup "service.name" = some c)
      ∧ (∀ o f, (get_lambda_resource none (some o) f).lookup "service.name" = some o)
      ∧ (∀ f, (get_lambda_resource none none (some f)).lookup "service.name" = some f)
      ∧ ((get_lambda_resource none none none).lookup "service.name" = some "unknown_service")
      ∧ (∀ c o f, (get_lambda_resource c o (some f)).lookup "faas.name" = some f)
      ∧ (∀ c o, (get_lambda_resource c o none).lookup "faas.name" = none) := by
  exact ⟨fun c o f => rfl, fun o f => rfl, fun f => rfl, rfl, fun c o f => rfl, fun c o => rfl⟩

/-- Claim C7: span-attribute extraction always produces
`faas.invocation_id` and `faas.trigger`, and produces `cloud.resource_id`
and `cloud.account.id` (the latter equal to colon-separated segment index
4 of the function ARN) exactly when the ARN has at least 5 colon-separated
segments; a malformed ARN omits both without raising. -/
theorem arn_parsing_attributes (arn requestId : String) :
    (extract_span_attributes arn requestId).lookup "faas.invocation_id" = some requestId
      ∧ (extract_span_attributes arn requestId).lookup "faas.trigger" = some "other"
      ∧ (extract_span_attributes arn requestId).lookup "cloud.resource_id"
          = (if 5 ≤ (splitArn arn).length then some arn else none)
      ∧ (extract_span_attributes arn requestId).lookup "cloud.account.id"
          = (if 5 ≤ (splitArn arn).length then some ((splitArn arn).getD 4 "") else none) := by
  by_cases h : 5 ≤ (splitArn arn).length
  · refine ⟨?_, ?_, ?_, ?_⟩ <;> simp only [extract_span_attributes, if_pos h] <;> rfl
  · refine ⟨?_, ?_, ?_, ?_⟩ <;> simp only [extract_span_attributes, if_neg h] <;> rfl

/-- Counterexample to claim C8 as stated: a non-empty span batch whose
serialization yields null bytes makes `export` return SUCCESS, not
FAILURE. -/
theorem export_empty_serialization_not_failure :
    (exporter_export [0] (fun _ => Except.ok none) none none).fst ≠ ExportResult.FAILURE := by
  decide

/-- Claim C8 (amended): for every non-empty span batch whose serialization
yields empty or null bytes, `export` handles it gracefully — logs and
returns SUCCESS (the behavior the package's own `test_export_failure`
documents); only a raised serialization exception yields FAILURE. -/
theorem export_empty_serialization_success {α : Type} (spans : List α)
    (serialize : List α → Except String (Option (List Nat)))
    (envLevel : Option String) (ctorLevel : Option Int)
    (hne : spans ≠ [])
    (hser : serialize spans = Except.ok none ∨ serialize spans = Except.ok (some [])) :
    (exporter_export spans serialize envLevel ctorLevel).fst = ExportResult.SUCCESS := by
  cases spans with
  | nil => exact absurd rfl hne
  | cons a l =>
    rcases hser with hser | hser <;>
      simp only [exporter_export, List.isEmpty_cons, if_neg Bool.false_ne_true, hser]

/-- Concrete instance of the amended claim C8: a one-span batch whose
serialization yields empty bytes is exported with SUCCESS. -/
theorem export_empty_serialization_success_witness :
    (exporter_export [0] (fun _ => Except.ok (some [])) none none).fst
      = ExportResult.SUCCESS :=
  export_empty_serialization_success [0] (fun _ => Except.ok (some [])) none none
    (by decide) (Or.inr rfl)

/-- Claim C9: per export call, the effective gzip level is the environment
value when it parses as an integer in [0,9] (overriding the constructor
value); otherwise the constructor value, otherwise the default 6; a
non-numeric or out-of-range environment value falls back to the
constructor-or-default level and logs exactly one warning, also at the
level of a whole (non-empty) export call. -/
theorem gzip_level_resolution :
    (∀ s n cl, parseIntStr (trimStr s) = some n → 0 ≤ n → n ≤ 9 →
        effective_gzip_level (some s) cl = (n, 0))
      ∧ (∀ s cl, parseIntStr (trimStr s) = none →
          effective_gzip_level (some s) cl = (cl.getD 6, 1))
      ∧ (∀ s n cl, parseIntStr (trimStr s) = some n → ¬(0 ≤ n ∧ n ≤ 9) →
          effective_gzip_level (some s) cl = (cl.getD 6, 1))
      ∧ (∀ cl, effective_gzip_level none cl = (cl.getD 6, 0))
      ∧ (∀ (s : String) (cl : Option Int) (a : Nat) (l : List Nat)
            (serialize : List Nat → Except String (Option (List Nat))),
          parseIntStr (trimStr s) = none →
          (exporter_export (a :: l) serialize (some s) cl).snd = 1) := by
  refine ⟨?_, ?_, ?_, ?_, ?_⟩
  · intro s n cl hp h0 h9
    simp only [effective_gzip_level, hp, if_pos (And.intro h0 h9)]
  · intro s cl hp
    simp only [effective_gzip_level, hp]
  · intro s n cl hp hrange
    simp only [effective_gzip_level, hp, if_neg hrange]
  · intro cl
    rfl
  · intro s cl a l serialize hp
    simp only [exporter_export, List.isEmpty_cons, if_neg Bool.false_ne_true,
      effective_gzip_level, hp]
    cases serialize (a :: l) with
    | error e => rfl
    | ok o => cases o <;> rfl

/-- Concrete instance of claim C9: a non-numeric environment value falls
back to the constructor level 4 and logs one warning. -/
theorem gzip_level_resolution_witness :
    effective_gzip_level (some "not-a-number") (some 4) = (4, 1) :=
  gzip_level_resolution.2.1 "not-a-number" (some 4) (by decide)

/-- Claim C10: in a default environment (neither the service-name variable
nor the platform function-name variable set) the Span Export Encoder's
envelope `source` defaults to the hyphenated `"unknown-service"`, while the
Resource Builder's `service.name` defaults to the underscored
`"unknown_service"`, so the two do not agree. -/
theorem default_source_differs_from_resource_service_name :
    exporter_service_name none none = "unknown-service"
      ∧ (get_lambda_resource none none none).lookup "service.name" = some "unknown_service"
      ∧ exporter_service_name none none
          ≠ ((get_lambda_resource none none none).lookup "service.name").getD "" := by
  decide
